import Mathlib

/-!
Verification of the resilient GitHub aggregation client.

Shallow embedding of `src/github_api/api_client.py` and
`src/services/github_service.py`:
- `is_transient_error` (api_client.py lines 24-45),
- the rate limiter `_check_rate_limit` (lines 129-143),
- the circuit breaker `_check_circuit_breaker` / `_record_success` /
  `_record_failure` (lines 145-183),
- the paginated `get_repositories` loop (lines 283-396),
- the retry decorator configuration shared by the four operations
  (tenacity `stop_after_attempt(3)`, `wait_exponential(multiplier=1, min=2,
  max=10)`, `retry_if_exception(is_transient_error)`),
- the aggregation `GitHubService.get_user_complete_info`
  (github_service.py lines 22-135) with its three `_transform_*` helpers.

Machine-level effects (HTTP, sleeping, locks) are made explicit: the rate
limiter returns the sleep it performs, the circuit breaker returns an
`Except`, and upstream outcomes are passed in as data.
-/

/-- Exceptions that can reach `is_transient_error` in this program, following
the httpx class hierarchy: `ConnectTimeout`, `ReadTimeout`, `WriteTimeout` and
`PoolTimeout` are the subclasses of `httpx.TimeoutException`;
`httpx.HTTPStatusError` carries the response status code; `httpx.ConnectError`
(connection refused / DNS failure) is a subclass of `httpx.NetworkError`,
a sibling of `TimeoutException`, hence NOT an instance of it. `otherError`
stands for any remaining exception kind. -/
inductive HttpxException where
  | connectTimeout
  | readTimeout
  | writeTimeout
  | poolTimeout
  | httpStatusError (status : Nat)
  | connectError
  | otherError
deriving DecidableEq

/-- `isinstance(exception, httpx.TimeoutException)`. -/
def isTimeoutException : HttpxException → Bool
  | .connectTimeout => true
  | .readTimeout => true
  | .writeTimeout => true
  | .poolTimeout => true
  | _ => false

/-- `is_transient_error` (api_client.py lines 24-45): timeouts are transient;
an HTTP status error is transient iff `status_code >= 500 or status_code ==
429`; everything else is permanent. -/
def is_transient_error (exception : HttpxException) : Bool :=
  if isTimeoutException exception then
    true
  else
    match exception with
    | .httpStatusError status_code =>
        if status_code ≥ 500 || status_code == 429 then true else false
    | _ => false

/-- `RateLimitState`: the `rate_limit_remaining` / `rate_limit_reset` pair of
`GitHubAPIClient`. Times are epoch seconds. -/
structure RateLimitState where
  rate_limit_remaining : Nat
  rate_limit_reset : Int
deriving DecidableEq

/-- `_check_rate_limit` (api_client.py lines 129-143), with the performed
sleep made explicit.  Returns the updated state and `some wait_time` when the
call `await asyncio.sleep(wait_time)` happens (suspension until
`rate_limit_reset`), `none` when no sleep happens.  The code only sleeps and
only restores `rate_limit_remaining` to 5000 when `remaining <= 10` AND
`wait_time = reset - now` is strictly positive. -/
def check_rate_limit (now : Int) (s : RateLimitState) :
    RateLimitState × Option Int :=
  if s.rate_limit_remaining ≤ 10 then
    let wait_time := s.rate_limit_reset - now
    if wait_time > 0 then
      ({ s with rate_limit_remaining := 5000 }, some wait_time)
    else
      (s, none)
  else
    (s, none)

/-- C3 counterexample: the claim says that for EVERY state with
`remaining ≤ 10` — "including states where reset_at is already in the past" —
the caller is suspended and `remaining` becomes 5000.  At the concrete state
`remaining = 5`, `reset_at = 0` with current time `10` (reset in the past),
the code performs no suspension and leaves `remaining = 5 ≠ 5000`. -/
theorem check_rate_limit_past_reset_counterexample :
    (5 : Nat) ≤ 10 ∧
    (check_rate_limit 10 ⟨5, 0⟩).2 = none ∧
    (check_rate_limit 10 ⟨5, 0⟩).1.rate_limit_remaining = 5 := by
  refine ⟨by decide, ?_, ?_⟩ <;> decide

/-- C3 (amended): when `remaining ≤ 10` and `reset_at` is strictly in the
future, `_check_rate_limit` suspends the caller for `reset_at − now` (i.e.
until `reset_at`) and restores `remaining` to 5000; when `reset_at ≤ now`
it neither sleeps nor changes the state. -/
theorem check_rate_limit_spec (now : Int) (s : RateLimitState)
    (hrem : s.rate_limit_remaining ≤ 10) :
    (now < s.rate_limit_reset →
      check_rate_limit now s =
        ({ s with rate_limit_remaining := 5000 },
          some (s.rate_limit_reset - now))) ∧
    (s.rate_limit_reset ≤ now → check_rate_limit now s = (s, none)) := by
  constructor
  · intro hlt
    simp only [check_rate_limit, if_pos hrem]
    rw [if_pos (by omega)]
  · intro hle
    simp only [check_rate_limit, if_pos hrem]
    rw [if_neg (by omega)]

/-- Witness for `check_rate_limit_spec` at `now = 50`,
`s = ⟨7, 80⟩`: the limiter sleeps 30 seconds and restores the quota. -/
theorem check_rate_limit_spec_witness :
    ((7 : Nat) ≤ 10) ∧
    ((50 : Int) < 80 →
      check_rate_limit 50 ⟨7, 80⟩ = (⟨5000, 80⟩, some 30)) ∧
    ((80 : Int) ≤ 50 → check_rate_limit 50 ⟨7, 80⟩ = (⟨7, 80⟩, none)) :=
  ⟨by decide, (check_rate_limit_spec 50 ⟨7, 80⟩ (by decide)).1,
    (check_rate_limit_spec 50 ⟨7, 80⟩ (by decide)).2⟩

/-- C4 counterexample: the claim says every network timeout OR CONNECT
FAILURE maps to transient.  A connect failure (`httpx.ConnectError`) is not a
`TimeoutException` and not an `HTTPStatusError`, so `is_transient_error`
returns `false` on it. -/
theorem is_transient_error_connect_failure_counterexample :
    is_transient_error HttpxException.connectError = false := by
  decide

/-- C4 (amended): `is_transient_error` is a pure total predicate on the
failure domain: every network TIMEOUT (connect/read/write/pool timeout) maps
to transient; an HTTP status failure with status 500-599 or 429 maps to
transient; every other HTTP status failure (400-499 except 429) maps to
permanent; every other failure kind — including a non-timeout connect
failure — maps to permanent. -/
theorem is_transient_error_spec :
    (∀ e, isTimeoutException e = true → is_transient_error e = true) ∧
    (∀ st, 500 ≤ st → st ≤ 599 →
      is_transient_error (.httpStatusError st) = true) ∧
    (is_transient_error (.httpStatusError 429) = true) ∧
    (∀ st, 400 ≤ st → st ≤ 499 → st ≠ 429 →
      is_transient_error (.httpStatusError st) = false) ∧
    (is_transient_error .connectError = false) ∧
    (is_transient_error .otherError = false) := by
  refine ⟨?_, ?_, by decide, ?_, by decide, by decide⟩
  · intro e he
    simp [is_transient_error, he]
  · intro st h5 _
    have hc : (decide (st ≥ 500) || (st == 429)) = true := by
      simp only [Bool.or_eq_true, decide_eq_true_eq, beq_iff_eq]
      omega
    simp [is_transient_error, isTimeoutException, hc]
  · intro st h4 h4' hne
    have hc : (decide (st ≥ 500) || (st == 429)) = false := by
      rw [Bool.or_eq_false_iff]
      refine ⟨by simp only [decide_eq_false_iff_not]; omega, ?_⟩
      simp only [beq_eq_false_iff_ne]
      omega
    simp [is_transient_error, isTimeoutException, hc]

/-- Witness for `is_transient_error_spec`: concrete rows of the table. -/
theorem is_transient_error_spec_witness :
    (isTimeoutException .readTimeout = true ∧
      is_transient_error .readTimeout = true) ∧
    ((500 ≤ 503 ∧ 503 ≤ 599) ∧
      is_transient_error (.httpStatusError 503) = true) ∧
    ((400 ≤ 404 ∧ 404 ≤ 499 ∧ 404 ≠ 429) ∧
      is_transient_error (.httpStatusError 404) = false) :=
  ⟨⟨by decide, is_transient_error_spec.1 .readTimeout (by decide)⟩,
    ⟨⟨by decide, by decide⟩,
      is_transient_error_spec.2.1 503 (by decide) (by decide)⟩,
    ⟨⟨by decide, by decide, by decide⟩,
      is_transient_error_spec.2.2.2.1 404 (by decide) (by decide) (by decide)⟩⟩

/-- `CircuitState`: the circuit-breaker fields of `GitHubAPIClient`
(`circuit_open`, `circuit_failures`, `circuit_last_failure_time`); the
threshold (5) and reset timeout (60 s) are fixed configuration. -/
structure CircuitState where
  circuit_open : Bool
  circuit_failures : Nat
  circuit_last_failure_time : Option Int
deriving DecidableEq

/-- `circuit_failure_threshold` (api_client.py line 74). -/
def circuit_failure_threshold : Nat := 5

/-- `circuit_reset_timeout` in seconds (api_client.py line 75). -/
def circuit_reset_timeout : Int := 60

/-- The constructor-time circuit state (api_client.py lines 72-76). -/
def initialCircuit : CircuitState :=
  { circuit_open := false, circuit_failures := 0,
    circuit_last_failure_time := none }

/-- `_check_circuit_breaker` (api_client.py lines 145-161): when the circuit
is open and a last-failure time is recorded, either close it (resetting the
failure count) once `now - last_failure ≥ circuit_reset_timeout`, or raise a
"Circuit breaker is OPEN" exception.  `Except.error` models the raise. -/
def check_circuit_breaker (now : Int) (s : CircuitState) :
    Except String CircuitState :=
  if s.circuit_open then
    match s.circuit_last_failure_time with
    | some last =>
        if now - last ≥ circuit_reset_timeout then
          .ok { s with circuit_open := false, circuit_failures := 0 }
        else
          .error "Circuit breaker is OPEN"
    | none => .ok s
  else
    .ok s

/-- `_record_success` (api_client.py lines 163-170): only when failures are
pending does it reset the count and close the circuit. -/
def record_success (s : CircuitState) : CircuitState :=
  if s.circuit_failures > 0 then
    { s with circuit_failures := 0,
             circuit_open := if s.circuit_open then false else s.circuit_open }
  else
    s

/-- `_record_failure` (api_client.py lines 172-183): increment the failure
count, stamp the failure time, and open the circuit once the count reaches
the threshold. -/
def record_failure (now : Int) (s : CircuitState) : CircuitState :=
  let failures := s.circuit_failures + 1
  { circuit_open :=
      if failures ≥ circuit_failure_threshold then true else s.circuit_open,
    circuit_failures := failures,
    circuit_last_failure_time := some now }

/-- A sequence of `_record_failure` calls at the given timestamps. -/
def recordFailures (ts : List Int) (s : CircuitState) : CircuitState :=
  ts.foldl (fun s t => record_failure t s) s

theorem recordFailures_failures (ts : List Int) (s : CircuitState) :
    (recordFailures ts s).circuit_failures =
      s.circuit_failures + ts.length := by
  induction ts generalizing s with
  | nil => simp [recordFailures]
  | cons t rest ih =>
      simp only [recordFailures, List.foldl_cons, List.length_cons]
      rw [show List.foldl (fun s t => record_failure t s) (record_failure t s)
            rest = recordFailures rest (record_failure t s) from rfl, ih]
      simp [record_failure]
      omega

theorem recordFailures_opens (ts : List Int) (s : CircuitState)
    (hne : ts ≠ []) (h5 : s.circuit_failures + ts.length ≥
      circuit_failure_threshold) :
    (recordFailures ts s).circuit_open = true := by
  induction ts generalizing s with
  | nil => exact absurd rfl hne
  | cons t rest ih =>
      simp only [recordFailures, List.foldl_cons]
      rcases rest with _ | ⟨t', rest'⟩
      · simp only [List.foldl_nil]
        simp only [List.length_cons, List.length_nil] at h5
        simp only [record_failure]
        rw [if_pos (by omega)]
      · rw [show List.foldl (fun s t => record_failure t s)
              (record_failure t s) (t' :: rest') =
            recordFailures (t' :: rest') (record_failure t s) from rfl]
        apply ih _ (by simp)
        simp only [record_failure, List.length_cons] at h5 ⊢
        omega

theorem recordFailures_stays_closed (ts : List Int) (s : CircuitState)
    (hopen : s.circuit_open = false)
    (hlt : s.circuit_failures + ts.length < circuit_failure_threshold) :
    (recordFailures ts s).circuit_open = false := by
  induction ts generalizing s with
  | nil => simpa [recordFailures] using hopen
  | cons t rest ih =>
      simp only [recordFailures, List.foldl_cons]
      rw [show List.foldl (fun s t => record_failure t s)
            (record_failure t s) rest =
          recordFailures rest (record_failure t s) from rfl]
      apply ih
      · simp only [record_failure, List.length_cons] at hlt ⊢
        rw [if_neg (by omega)]
        exact hopen
      · simp only [record_failure, List.length_cons] at hlt ⊢
        omega

/-- C5: the circuit-breaker lifecycle.  (1) Starting closed with zero
failures, exactly 5 consecutive `record_failure` calls open the circuit
(4 do not); (2) while open with less than 60 s elapsed since the last
failure, `_check_circuit_breaker` raises without the upstream being reached;
(3) once 60 s or more have elapsed it succeeds, closing the circuit and
resetting `circuit_failures` to 0; (4) `_record_success` also resets
`circuit_failures` to 0. -/
theorem circuit_breaker_lifecycle :
    (∀ ts : List Int, ts.length = 5 →
      (recordFailures ts initialCircuit).circuit_open = true) ∧
    (∀ ts : List Int, ts.length = 4 →
      (recordFailures ts initialCircuit).circuit_open = false) ∧
    (∀ (s : CircuitState) (now last : Int), s.circuit_open = true →
      s.circuit_last_failure_time = some last →
      now - last < circuit_reset_timeout →
      check_circuit_breaker now s = .error "Circuit breaker is OPEN") ∧
    (∀ (s : CircuitState) (now last : Int), s.circuit_open = true →
      s.circuit_last_failure_time = some last →
      now - last ≥ circuit_reset_timeout →
      check_circuit_breaker now s =
        .ok { s with circuit_open := false, circuit_failures := 0 }) ∧
    (∀ s : CircuitState, (record_success s).circuit_failures = 0) := by
  refine ⟨?_, ?_, ?_, ?_, ?_⟩
  · intro ts hlen
    exact recordFailures_opens ts initialCircuit
      (by intro h; rw [h] at hlen; simp at hlen)
      (by simp [initialCircuit, hlen, circuit_failure_threshold])
  · intro ts hlen
    exact recordFailures_stays_closed ts initialCircuit rfl
      (by simp [initialCircuit, hlen, circuit_failure_threshold])
  · intro s now last hopen hlast hlt
    simp only [check_circuit_breaker, hopen, if_true, hlast]
    rw [if_neg (by omega)]
  · intro s now last hopen hlast hge
    simp only [check_circuit_breaker, hopen, if_true, hlast]
    rw [if_pos (by omega)]
  · intro s
    by_cases h : s.circuit_failures > 0
    · simp [record_success, h]
    · simp only [record_success, if_neg h]
      omega

/-- Witness for `circuit_breaker_lifecycle` at concrete timestamps: five
failures at times 0..4 open the circuit; at time 30 the breaker raises; at
time 64 it closes; `record_success` clears pending failures. -/
theorem circuit_breaker_lifecycle_witness :
    (([0, 1, 2, 3, 4] : List Int).length = 5 ∧
      (recordFailures [0, 1, 2, 3, 4] initialCircuit).circuit_open = true) ∧
    (([0, 1, 2, 3] : List Int).length = 4 ∧
      (recordFailures [0, 1, 2, 3] initialCircuit).circuit_open = false) ∧
    (check_circuit_breaker 30 ⟨true, 5, some 4⟩ =
      .error "Circuit breaker is OPEN") ∧
    (check_circuit_breaker 64 ⟨true, 5, some 4⟩ =
      .ok ⟨false, 0, some 4⟩) ∧
    ((record_success ⟨false, 3, some 4⟩).circuit_failures = 0) :=
  ⟨⟨rfl, circuit_breaker_lifecycle.1 [0, 1, 2, 3, 4] rfl⟩,
    ⟨rfl, circuit_breaker_lifecycle.2.1 [0, 1, 2, 3] rfl⟩,
    circuit_breaker_lifecycle.2.2.1 ⟨true, 5, some 4⟩ 30 4 rfl rfl (by decide),
    circuit_breaker_lifecycle.2.2.2.1 ⟨true, 5, some 4⟩ 64 4 rfl rfl
      (by decide),
    circuit_breaker_lifecycle.2.2.2.2 ⟨false, 3, some 4⟩⟩

/-- The three operations that touch the circuit state, with the time at
which they happen. -/
inductive CircuitOp where
  | beforeCall (now : Int)
  | recordSuccess
  | recordFailure (now : Int)

/-- One circuit-breaker transition.  A `beforeCall` that raises leaves the
state unchanged (the lock releases and nothing was mutated). -/
def stepCircuit (s : CircuitState) : CircuitOp → CircuitState
  | .beforeCall now =>
      match check_circuit_breaker now s with
      | .ok s' => s'
      | .error _ => s
  | .recordSuccess => record_success s
  | .recordFailure now => record_failure now s

/-- Running a sequence of operations from the constructor-time state. -/
def runCircuit (ops : List CircuitOp) : CircuitState :=
  ops.foldl stepCircuit initialCircuit

/-- The inductive invariant of the circuit state. -/
def CircuitInv (s : CircuitState) : Prop :=
  s.circuit_open = true →
    s.circuit_failures ≥ circuit_failure_threshold

theorem check_circuit_breaker_ok_inv (now : Int) (s s' : CircuitState)
    (h : CircuitInv s) (heq : check_circuit_breaker now s = .ok s') :
    CircuitInv s' := by
  unfold check_circuit_breaker at heq
  split at heq
  · split at heq
    · split at heq
      · cases heq
        intro hc
        simp at hc
      · simp at heq
    · cases heq
      exact h
  · cases heq
    exact h

theorem stepCircuit_preserves_inv (s : CircuitState) (op : CircuitOp)
    (h : CircuitInv s) : CircuitInv (stepCircuit s op) := by
  cases op with
  | beforeCall now =>
      simp only [stepCircuit]
      split
      · next s' heq => exact check_circuit_breaker_ok_inv now s s' h heq
      · next _ _ => exact h
  | recordSuccess =>
      simp only [stepCircuit, record_success]
      by_cases hf : s.circuit_failures > 0
      · simp only [if_pos hf]
        intro hcontra
        by_cases ho : s.circuit_open <;> simp [ho] at hcontra
      · simp only [if_neg hf]
        exact h
  | recordFailure now =>
      simp only [stepCircuit, record_failure]
      intro hopen
      simp only at hopen ⊢
      by_cases h5 : s.circuit_failures + 1 ≥ circuit_failure_threshold
      · omega
      · rw [if_neg h5] at hopen
        have := h hopen
        omega

theorem foldl_stepCircuit_inv (ops : List CircuitOp) (s : CircuitState)
    (h : CircuitInv s) : CircuitInv (ops.foldl stepCircuit s) := by
  induction ops generalizing s with
  | nil => exact h
  | cons op rest ih =>
      exact ih (stepCircuit s op) (stepCircuit_preserves_inv s op h)

/-- C6: in every state reachable from the initial circuit state by any
sequence of `before_call` / `record_success` / `record_failure` operations,
`circuit_open = true` implies `circuit_failures ≥ failure_threshold`; and the
only single transitions that turn `circuit_open` from `true` to `false` are a
`before_call` whose time is at least `circuit_reset_timeout` past the
recorded last failure, or a `record_success`. -/
theorem circuit_breaker_invariant :
    (∀ ops : List CircuitOp, (runCircuit ops).circuit_open = true →
      (runCircuit ops).circuit_failures ≥ circuit_failure_threshold) ∧
    (∀ (s : CircuitState) (op : CircuitOp), s.circuit_open = true →
      (stepCircuit s op).circuit_open = false →
      (∃ now last, op = .beforeCall now ∧
        s.circuit_last_failure_time = some last ∧
        now - last ≥ circuit_reset_timeout) ∨
      op = .recordSuccess) := by
  constructor
  · intro ops
    exact foldl_stepCircuit_inv ops initialCircuit
      (by intro h; simp [initialCircuit] at h)
  · intro s op hopen hclosed
    cases op with
    | beforeCall now =>
        left
        refine ⟨now, ?_⟩
        simp only [stepCircuit] at hclosed
        split at hclosed
        · next s' heq =>
            unfold check_circuit_breaker at heq
            rw [if_pos hopen] at heq
            split at heq
            · next last hlast =>
                split at heq
                · next htime => exact ⟨last, rfl, hlast, htime⟩
                · simp at heq
            · next hlast =>
                cases heq
                rw [hopen] at hclosed
                exact absurd hclosed (by simp)
        · next _ _ =>
            rw [hopen] at hclosed
            exact absurd hclosed (by simp)
    | recordSuccess => right; rfl
    | recordFailure now =>
        exfalso
        simp only [stepCircuit, record_failure] at hclosed
        by_cases h5 : s.circuit_failures + 1 ≥ circuit_failure_threshold
        · rw [if_pos h5] at hclosed
          exact absurd hclosed (by simp)
        · rw [if_neg h5] at hclosed
          rw [hopen] at hclosed
          exact absurd hclosed (by simp)

/-- Witness for `circuit_breaker_invariant`: five failures open the circuit
and leave at least 5 recorded failures; a `record_success` on an open state
closes it via one of the two allowed transitions. -/
theorem circuit_breaker_invariant_witness :
    ((runCircuit [.recordFailure 0, .recordFailure 1, .recordFailure 2,
        .recordFailure 3, .recordFailure 4]).circuit_open = true ∧
      (runCircuit [.recordFailure 0, .recordFailure 1, .recordFailure 2,
        .recordFailure 3, .recordFailure 4]).circuit_failures ≥
        circuit_failure_threshold) ∧
    ((⟨true, 5, some 4⟩ : CircuitState).circuit_open = true ∧
      (stepCircuit ⟨true, 5, some 4⟩ .recordSuccess).circuit_open = false ∧
      ((∃ now last, (CircuitOp.recordSuccess) = .beforeCall now ∧
          (⟨true, 5, some 4⟩ : CircuitState).circuit_last_failure_time =
            some last ∧ now - last ≥ circuit_reset_timeout) ∨
        (CircuitOp.recordSuccess) = .recordSuccess)) :=
  ⟨⟨by decide, circuit_breaker_invariant.1 [.recordFailure 0,
      .recordFailure 1, .recordFailure 2, .recordFailure 3, .recordFailure 4]
      (by decide)⟩,
    ⟨rfl, by decide,
      circuit_breaker_invariant.2 ⟨true, 5, some 4⟩ .recordSuccess rfl
        (by decide)⟩⟩

/-- The pagination metadata dict built by `get_repositories`
(api_client.py lines 384-389).  The success path of the aggregation adds no
`error` key, while its repositories-failure path does (github_service.py
lines 62-68); key absence is modelled as `none`. -/
structure ReposMetadata where
  total_fetched : Nat
  has_more : Bool
  limit_reached : Bool
  pages_fetched : Nat
  error : Option String := none
deriving DecidableEq

/-- The `while page <= max_pages` pagination loop of `get_repositories`
(api_client.py lines 310-374).  `fetchPage page` is the upstream response for
that page after JSON parsing and structure validation: the list of items and
whether the `Link` response header contains `rel="next"`.  The first `Nat`
argument is recursion fuel only; with fuel ≥ `max_pages + 1 - page` it never
runs out, and on exhaustion it returns the same tuple as the loop exit.
Returns `(all_repos, page, has_more, limit_reached)` at loop exit. -/
def reposLoop {α : Type} (fetchPage : Nat → List α × Bool) (max_pages : Nat) :
    Nat → Nat → List α → Bool → Bool → List α × Nat × Bool × Bool
  | 0, page, all_repos, has_more, limit_reached =>
      (all_repos, page, has_more, limit_reached)
  | fuel + 1, page, all_repos, has_more, limit_reached =>
      if page ≤ max_pages then
        let pr := fetchPage page
        if pr.1.isEmpty then
          (all_repos, page, has_more, limit_reached)
        else
          reposLoop fetchPage max_pages fuel (page + 1) (all_repos ++ pr.1)
            (has_more || pr.2)
            (limit_reached || (pr.2 && decide (page ≥ max_pages)))
      else
        (all_repos, page, has_more, limit_reached)

/-- `get_repositories` (api_client.py lines 283-396): run the pagination loop
with `max_pages = 10` starting at page 1, then build the metadata dict with
`pages_fetched = page - 1`. -/
def get_repositories {α : Type} (fetchPage : Nat → List α × Bool) :
    List α × ReposMetadata :=
  let max_pages := 10
  let r := reposLoop fetchPage max_pages (max_pages + 1) 1 [] false false
  (r.1,
    { total_fetched := r.1.length, has_more := r.2.2.1,
      limit_reached := r.2.2.2, pages_fetched := r.2.1 - 1 })

/-- Upstream scenario: pages 1-3 each hold 100 repositories, no page carries
a `rel="next"` link, page 4 is empty. -/
def pagesThreeThenEmpty : Nat → List Unit × Bool := fun page =>
  if page ≤ 3 then (List.replicate 100 (), false) else ([], false)

/-- Upstream scenario: pages 1-2 carry `rel="next"` links (as a real upstream
would mid-collection), page 3 holds the last 100 repositories without a next
link, page 4 is empty. -/
def pagesThreeLinkedThenEmpty : Nat → List Unit × Bool := fun page =>
  if page ≤ 3 then (List.replicate 100 (), decide (page ≤ 2)) else ([], false)

/-- Upstream scenario: every page holds 100 repositories and carries a
`rel="next"` link. -/
def pagesTenFull : Nat → List Unit × Bool := fun _ =>
  (List.replicate 100 (), true)

set_option maxRecDepth 40000

/-- C1 counterexample: in the claimed scenario — 3 pages of 100 repositories
followed by an empty page, no next link on page 3 or 4 — the code fetches the
empty fourth page but reports `pages_fetched = page - 1 = 3`, not 4 as the
claim states. -/
theorem get_repositories_pages_fetched_counterexample :
    (get_repositories pagesThreeThenEmpty).1.length = 300 ∧
    (get_repositories pagesThreeThenEmpty).2.pages_fetched = 3 ∧
    (get_repositories pagesThreeThenEmpty).2.pages_fetched ≠ 4 := by
  refine ⟨by decide, by decide, by decide⟩

/-- C1 (amended): with 3 pages of 100 repositories, none advertising a next
link, followed by an empty page, `get_repositories` returns 300 items with
`has_more = false`, `limit_reached = false` and `pages_fetched = 3` (the
trailing empty page is fetched but not counted); if pages 1-2 do advertise
next links, `has_more` is `true` instead; and with 10 full pages all
advertising next links, `limit_reached = true` (with `has_more = true`,
`pages_fetched = 10`, 1000 items). -/
theorem get_repositories_pagination_spec :
    ((get_repositories pagesThreeThenEmpty).1.length = 300 ∧
      (get_repositories pagesThreeThenEmpty).2.has_more = false ∧
      (get_repositories pagesThreeThenEmpty).2.limit_reached = false ∧
      (get_repositories pagesThreeThenEmpty).2.pages_fetched = 3) ∧
    ((get_repositories pagesThreeLinkedThenEmpty).1.length = 300 ∧
      (get_repositories pagesThreeLinkedThenEmpty).2.has_more = true ∧
      (get_repositories pagesThreeLinkedThenEmpty).2.limit_reached = false ∧
      (get_repositories pagesThreeLinkedThenEmpty).2.pages_fetched = 3) ∧
    ((get_repositories pagesTenFull).1.length = 1000 ∧
      (get_repositories pagesTenFull).2.has_more = true ∧
      (get_repositories pagesTenFull).2.limit_reached = true ∧
      (get_repositories pagesTenFull).2.pages_fetched = 10) := by
  refine ⟨⟨?_, ?_, ?_, ?_⟩, ⟨?_, ?_, ?_, ?_⟩, ⟨?_, ?_, ?_, ?_⟩⟩ <;> decide

/-- The raw `/user` payload as consumed by the aggregation: each `.get(key)`
access is a field, `none` meaning the key is absent. -/
structure UserData where
  login : Option String := none
  name : Option String := none
  email : Option String := none
  bio : Option String := none
  public_repos : Option Nat := none
  followers : Option Nat := none
  following : Option Nat := none
deriving DecidableEq

/-- A raw repository dict, restricted to the keys `_transform_repositories`
reads. -/
structure RepoData where
  name : Option String := none
  full_name : Option String := none
  private_ : Option Bool := none
  description : Option String := none
  html_url : Option String := none
  language : Option String := none
  created_at : Option String := none
  updated_at : Option String := none
  stargazers_count : Option Nat := none
deriving DecidableEq

/-- A transformed repository entry (github_service.py lines 141-151). -/
structure Repository where
  name : Option String
  full_name : Option String
  private_ : Bool
  description : Option String
  html_url : Option String
  language : Option String
  created_at : Option String
  updated_at : Option String
  stargazers_count : Nat
deriving DecidableEq

/-- A raw organization dict, restricted to the keys
`_transform_organizations` reads. -/
structure OrgData where
  login : Option String := none
  description : Option String := none
  url : Option String := none
deriving DecidableEq

/-- A transformed organization entry (github_service.py lines 158-162). -/
structure Organization where
  login : Option String
  description : Option String
  url : Option String
deriving DecidableEq

/-- A raw pull-request dict, restricted to the keys
`_transform_pull_requests` reads. -/
structure PRData where
  title : Option String := none
  state : Option String := none
  html_url : Option String := none
  created_at : Option String := none
  repository_url : Option String := none
deriving DecidableEq

/-- A transformed pull-request entry (github_service.py lines 172-178). -/
structure PullRequest where
  title : Option String
  state : Option String
  html_url : Option String
  created_at : Option String
  repository : String
deriving DecidableEq

/-- `_transform_repositories` (github_service.py lines 137-152). -/
def transform_repositories (repos_data : List RepoData) : List Repository :=
  repos_data.map fun repo =>
    { name := repo.name, full_name := repo.full_name,
      private_ := repo.private_.getD false,
      description := repo.description, html_url := repo.html_url,
      language := repo.language, created_at := repo.created_at,
      updated_at := repo.updated_at,
      stargazers_count := repo.stargazers_count.getD 0 }

/-- `_transform_organizations` (github_service.py lines 154-163). -/
def transform_organizations (orgs_data : List OrgData) : List Organization :=
  orgs_data.map fun org =>
    { login := org.login, description := org.description, url := org.url }

/-- `_transform_pull_requests` (github_service.py lines 165-179):
`repo_name = "/".join(repo_url.split("/")[-2:]) if repo_url else "unknown"`
with `repo_url = pr.get("repository_url", "")`. -/
def transform_pull_requests (prs_data : List PRData) : List PullRequest :=
  prs_data.map fun pr =>
    let repo_url := pr.repository_url.getD ""
    let repo_name :=
      if repo_url ≠ "" then
        let parts := repo_url.splitOn "/"
        String.intercalate "/" (parts.drop (parts.length - 2))
      else "unknown"
    { title := pr.title, state := pr.state, html_url := pr.html_url,
      created_at := pr.created_at, repository := repo_name }

/-- The `metadata.partial_failures` dict (github_service.py lines 105-109). -/
structure PartialFailures where
  repositories : Bool
  organizations : Bool
  pull_requests : Bool
deriving DecidableEq

/-- The `metadata.errors` dict (github_service.py lines 110-114). -/
structure ErrorsInfo where
  repositories : Option String
  organizations : Option String
  pull_requests : Option String
deriving DecidableEq

/-- The `metadata` dict of the aggregated response. -/
structure AggMetadata where
  partial_failures : PartialFailures
  errors : Option ErrorsInfo
deriving DecidableEq

/-- The `user` dict of the aggregated response
(github_service.py lines 91-99). -/
structure UserSummary where
  login : Option String
  name : Option String
  email : Option String
  bio : Option String
  public_repos : Option Nat
  followers : Option Nat
  following : Option Nat
deriving DecidableEq

/-- `AggregatedUserInfo`: the dict returned by `get_user_complete_info`
(github_service.py lines 90-116). -/
structure AggregatedUserInfo where
  user : UserSummary
  repositories : List Repository
  repositories_metadata : ReposMetadata
  organizations : List Organization
  pull_requests : List PullRequest
  metadata : AggMetadata
deriving DecidableEq

/-- The four upstream client operations, used to record which calls an
aggregation run attempts. -/
inductive ApiCall where
  | getUserInfo
  | getRepositories
  | getOrganizations
  | getPullRequests
deriving DecidableEq

/-- One request's upstream behaviour, as observed by the aggregation:
the outcome of `get_user_info`, the page stream seen by `get_repositories`
when that call succeeds (or its failure message), and the outcomes of
`get_organizations` and `get_pull_requests(username)`.  `Except.error e`
carries `str(exception)` of the raised exception. -/
structure Upstream where
  user_info : Except String UserData
  repositories : Except String (Nat → List RepoData × Bool)
  organizations : Except String (List OrgData)
  pull_requests : String → Except String (List PRData)

/-- Python truthiness of an error value first `None`-checked then used in
`any([...])`: `None` and the empty string are falsy. -/
def pyTruthy : Option String → Bool
  | none => false
  | some s => s != ""

/-- The repositories branch of the fan-out join (github_service.py lines
59-73): on failure, empty list, zeroed metadata with an added `error` key,
and the error string; on success, transform and overwrite `total_fetched`
with the transformed length. -/
def reposOutcome (r : Except String (Nat → List RepoData × Bool)) :
    List Repository × ReposMetadata × Option String :=
  match r with
  | .error e =>
      ([],
        { total_fetched := 0, has_more := false, limit_reached := false,
          pages_fetched := 0, error := some e }, some e)
  | .ok fetchPage =>
      let pr := get_repositories fetchPage
      let repositories := transform_repositories pr.1
      (repositories, { pr.2 with total_fetched := repositories.length }, none)

/-- The organizations branch of the fan-out join (github_service.py lines
75-80). -/
def orgsOutcome (r : Except String (List OrgData)) :
    List Organization × Option String :=
  match r with
  | .error e => ([], some e)
  | .ok orgs_data => (transform_organizations orgs_data, none)

/-- The pull-requests branch of the fan-out join (github_service.py lines
82-87). -/
def prsOutcome (r : Except String (List PRData)) :
    List PullRequest × Option String :=
  match r with
  | .error e => ([], some e)
  | .ok prs_data => (transform_pull_requests prs_data, none)

/-- The `ValueError` message raised when the identity payload has no usable
login (github_service.py line 40). -/
def loginMissingMsg : String :=
  "Unable to fetch username from GitHub API. 'login' field is missing."

/-- `GitHubService.get_user_complete_info` (github_service.py lines 22-135).
Returns the result (`Except.error` models the run raising) together with the
list of upstream calls the run attempts, in program order.  The identity
fetch comes first and is not guarded, so its failure propagates;
`username = user_data.get("login")` followed by `if not username` rejects an
absent or empty login before any fan-out call; the three fan-out outcomes
are folded independently; `metadata.errors` is populated iff
`any([repos_error, orgs_error, prs_error])`, i.e. iff some error string is
truthy. -/
def get_user_complete_info (up : Upstream) :
    Except String AggregatedUserInfo × List ApiCall :=
  match up.user_info with
  | .error e => (.error e, [.getUserInfo])
  | .ok user_data =>
      match user_data.login with
      | none => (.error loginMissingMsg, [.getUserInfo])
      | some username =>
          if username = "" then
            (.error loginMissingMsg, [.getUserInfo])
          else
            let ro := reposOutcome up.repositories
            let oo := orgsOutcome up.organizations
            let po := prsOutcome (up.pull_requests username)
            (.ok
              { user :=
                  { login := user_data.login, name := user_data.name,
                    email := user_data.email, bio := user_data.bio,
                    public_repos := user_data.public_repos,
                    followers := user_data.followers,
                    following := user_data.following },
                repositories := ro.1,
                repositories_metadata := ro.2.1,
                organizations := oo.1,
                pull_requests := po.1,
                metadata :=
                  { partial_failures :=
                      { repositories := ro.2.2.isSome,
                        organizations := oo.2.isSome,
                        pull_requests := po.2.isSome },
                    errors :=
                      if pyTruthy ro.2.2 || pyTruthy oo.2 || pyTruthy po.2
                      then
                        some { repositories := ro.2.2,
                               organizations := oo.2,
                               pull_requests := po.2 }
                      else none } },
              [.getUserInfo, .getRepositories, .getOrganizations,
                .getPullRequests])

/-- The aggregated response of a run that does not raise. -/
def aggOut (up : Upstream) : Option AggregatedUserInfo :=
  match (get_user_complete_info up).1 with
  | .ok r => some r
  | .error _ => none

/-- A sub-call outcome that counts as a failure with a non-empty
`str(exception)` message. -/
def failedNonempty {α : Type} : Except String α → Prop
  | .error e => e ≠ ""
  | .ok _ => False

theorem pyTruthy_reposOutcome (r : Except String (Nat → List RepoData × Bool)) :
    pyTruthy (reposOutcome r).2.2 = true ↔ failedNonempty r := by
  cases r with
  | error e => simp [reposOutcome, pyTruthy, failedNonempty, bne_iff_ne]
  | ok f => simp [reposOutcome, pyTruthy, failedNonempty]

theorem pyTruthy_orgsOutcome (r : Except String (List OrgData)) :
    pyTruthy (orgsOutcome r).2 = true ↔ failedNonempty r := by
  cases r with
  | error e => simp [orgsOutcome, pyTruthy, failedNonempty, bne_iff_ne]
  | ok d => simp [orgsOutcome, pyTruthy, failedNonempty]

theorem pyTruthy_prsOutcome (r : Except String (List PRData)) :
    pyTruthy (prsOutcome r).2 = true ↔ failedNonempty r := by
  cases r with
  | error e => simp [prsOutcome, pyTruthy, failedNonempty, bne_iff_ne]
  | ok d => simp [prsOutcome, pyTruthy, failedNonempty]

/-- C7: if the identity fetch fails, the run attempts no fan-out call and
propagates that error; if the identity payload lacks a usable `login`
(absent key, or the falsy empty string), the run fails with the structural
`ValueError` message, again attempting no fan-out call. -/
theorem identity_failure_aborts :
    (∀ (up : Upstream) (e : String), up.user_info = .error e →
      get_user_complete_info up = (.error e, [.getUserInfo])) ∧
    (∀ (up : Upstream) (u : UserData), up.user_info = .ok u →
      (u.login = none ∨ u.login = some "") →
      get_user_complete_info up =
        (.error loginMissingMsg, [.getUserInfo])) := by
  constructor
  · intro up e he
    simp [get_user_complete_info, he]
  · intro up u hu hlogin
    rcases hlogin with h | h <;> simp [get_user_complete_info, hu, h]

/-- Upstream where the identity fetch raises. -/
def upIdentityFail : Upstream :=
  { user_info := .error "Server Error",
    repositories := .ok fun _ => ([], false),
    organizations := .ok [],
    pull_requests := fun _ => .ok [] }

/-- Upstream where the identity payload has no `login` key. -/
def upNoLogin : Upstream :=
  { user_info := .ok {},
    repositories := .ok fun _ => ([], false),
    organizations := .ok [],
    pull_requests := fun _ => .ok [] }

/-- Witness for `identity_failure_aborts` at the two concrete upstreams. -/
theorem identity_failure_aborts_witness :
    (upIdentityFail.user_info = .error "Server Error" ∧
      get_user_complete_info upIdentityFail =
        (.error "Server Error", [.getUserInfo])) ∧
    (upNoLogin.user_info = .ok {} ∧
      get_user_complete_info upNoLogin =
        (.error loginMissingMsg, [.getUserInfo])) :=
  ⟨⟨rfl, identity_failure_aborts.1 upIdentityFail "Server Error" rfl⟩,
    ⟨rfl, identity_failure_aborts.2 upNoLogin {} rfl (Or.inl rfl)⟩⟩

/-- A sample raw repository record. -/
def sampleRepo : RepoData :=
  { name := some "widgets", full_name := some "acme/widgets",
    private_ := some false, stargazers_count := some 10 }

/-- One page holding `sampleRepo`, then empty pages, no next links. -/
def samplePagesOne : Nat → List RepoData × Bool := fun page =>
  if page = 1 then ([sampleRepo], false) else ([], false)

/-- A sample raw pull-request record. -/
def samplePR : PRData :=
  { title := some "Fix bug", state := some "open",
    repository_url := some "https://api.example.com/repos/acme/widgets" }

/-- C2 counterexample: when the repositories sub-call fails with an EMPTY
message (`str(exception) == ""`, e.g. a bare `httpx.ReadTimeout()`), the
failure is recorded in `partial_failures` but `any([repos_error, orgs_error,
prs_error])` sees only falsy strings, so `metadata.errors` is `None` even
though a sub-call failed — refuting the claimed iff. -/
def upReposFailEmpty : Upstream :=
  { user_info := .ok { login := some "octocat" },
    repositories := .error "",
    organizations := .ok [],
    pull_requests := fun _ => .ok [samplePR] }

theorem metadata_errors_iff_counterexample :
    (aggOut upReposFailEmpty).map
        (fun r => r.metadata.partial_failures.repositories) = some true ∧
    (aggOut upReposFailEmpty).map (fun r => r.metadata.errors) = some none := by
  constructor <;> rfl

/-- C2 (amended): for every run whose identity fetch succeeds with a usable
login, `metadata.errors` is non-null iff at least one of the three fan-out
sub-calls failed with a non-empty failure message (a failure whose message is
the empty string is still flagged in `partial_failures` but leaves `errors`
null). -/
theorem metadata_errors_iff_spec (up : Upstream) (u : UserData)
    (username : String) (hu : up.user_info = .ok u)
    (hl : u.login = some username) (hne : username ≠ "") :
    ((aggOut up).map (fun r => r.metadata.errors.isSome) = some true) ↔
      (failedNonempty up.repositories ∨ failedNonempty up.organizations ∨
        failedNonempty (up.pull_requests username)) := by
  have h1 := pyTruthy_reposOutcome up.repositories
  have h2 := pyTruthy_orgsOutcome up.organizations
  have h3 := pyTruthy_prsOutcome (up.pull_requests username)
  simp only [aggOut, get_user_complete_info, hu, hl]
  rw [if_neg hne]
  simp only [Option.map_some', Option.some.injEq]
  by_cases hC : (pyTruthy (reposOutcome up.repositories).2.2 ||
      pyTruthy (orgsOutcome up.organizations).2 ||
      pyTruthy (prsOutcome (up.pull_requests username)).2) = true
  · rw [if_pos hC]
    simp only [Option.isSome_some, true_iff]
    rcases Bool.or_eq_true _ _ |>.mp hC with h | h
    · rcases Bool.or_eq_true _ _ |>.mp h with h' | h'
      · exact Or.inl (h1.mp h')
      · exact Or.inr (Or.inl (h2.mp h'))
    · exact Or.inr (Or.inr (h3.mp h))
  · rw [if_neg hC]
    simp only [Option.isSome_none, Bool.false_eq_true, false_iff]
    simp only [Bool.or_eq_true, not_or] at hC
    rintro (h | h | h)
    · exact hC.1.1 (h1.mpr h)
    · exact hC.1.2 (h2.mpr h)
    · exact hC.2 (h3.mpr h)

/-- Upstream where only the organizations sub-call fails, with the message
used in the repository's own test suite. -/
def upOrgsFail : Upstream :=
  { user_info := .ok { login := some "octocat" },
    repositories := .ok samplePagesOne,
    organizations := .error "Org API failed",
    pull_requests := fun _ => .ok [samplePR] }

/-- Witness for `metadata_errors_iff_spec` at `upOrgsFail`. -/
theorem metadata_errors_iff_spec_witness :
    ((aggOut upOrgsFail).map (fun r => r.metadata.errors.isSome) =
        some true) ↔
      (failedNonempty upOrgsFail.repositories ∨
        failedNonempty upOrgsFail.organizations ∨
        failedNonempty (upOrgsFail.pull_requests "octocat")) :=
  metadata_errors_iff_spec upOrgsFail { login := some "octocat" } "octocat"
    rfl rfl (by decide)

/-- C8 counterexample: the claim quantifies over every run in which the
organizations sub-call fails; when it fails with an empty message, the
`partial_failures.organizations` flag is set but `metadata.errors` is `None`
altogether, so `metadata.errors.organizations` is not non-null. -/
def upOrgsFailEmpty : Upstream :=
  { user_info := .ok { login := some "octocat" },
    repositories := .ok samplePagesOne,
    organizations := .error "",
    pull_requests := fun _ => .ok [samplePR] }

theorem fanout_partial_failure_counterexample :
    (aggOut upOrgsFailEmpty).map
        (fun r => r.metadata.partial_failures.organizations) = some true ∧
    (aggOut upOrgsFailEmpty).map (fun r => r.metadata.errors) = some none := by
  constructor <;> rfl

/-- C8 (amended): in a run whose identity fetch succeeds with a usable login,
whose organizations sub-call fails and whose repositories and pull-requests
sub-calls succeed: `repositories` and `pull_requests` carry the transformed
successful payloads, `organizations = []`, `partial_failures =
{repositories: false, organizations: true, pull_requests: false}`, and —
provided the failure message is non-empty — `metadata.errors` is populated
with `organizations` non-null while the other two error fields are null. -/
theorem fanout_partial_failure_spec (up : Upstream) (u : UserData)
    (username e : String) (f : Nat → List RepoData × Bool)
    (pd : List PRData)
    (hu : up.user_info = .ok u) (hl : u.login = some username)
    (hne : username ≠ "")
    (hr : up.repositories = .ok f)
    (ho : up.organizations = .error e)
    (hp : up.pull_requests username = .ok pd) :
    (aggOut up).map (fun r => r.repositories) =
      some (transform_repositories (get_repositories f).1) ∧
    (aggOut up).map (fun r => r.pull_requests) =
      some (transform_pull_requests pd) ∧
    (aggOut up).map (fun r => r.organizations) = some [] ∧
    (aggOut up).map (fun r => r.metadata.partial_failures) =
      some { repositories := false, organizations := true,
             pull_requests := false } ∧
    (e ≠ "" → (aggOut up).map (fun r => r.metadata.errors) =
      some (some { repositories := none, organizations := some e,
                   pull_requests := none })) := by
  refine ⟨?_, ?_, ?_, ?_, ?_⟩
  · simp [aggOut, get_user_complete_info, hu, hl, hne, reposOutcome,
      orgsOutcome, prsOutcome, hr, ho, hp, pyTruthy]
  · simp [aggOut, get_user_complete_info, hu, hl, hne, reposOutcome,
      orgsOutcome, prsOutcome, hr, ho, hp, pyTruthy]
  · simp [aggOut, get_user_complete_info, hu, hl, hne, reposOutcome,
      orgsOutcome, prsOutcome, hr, ho, hp, pyTruthy]
  · simp [aggOut, get_user_complete_info, hu, hl, hne, reposOutcome,
      orgsOutcome, prsOutcome, hr, ho, hp, pyTruthy]
  · intro he
    simp [aggOut, get_user_complete_info, hu, hl, hne, reposOutcome,
      orgsOutcome, prsOutcome, hr, ho, hp, pyTruthy, he]

/-- Witness for `fanout_partial_failure_spec` at `upOrgsFail` (organizations
fail with the non-empty message "Org API failed"). -/
theorem fanout_partial_failure_spec_witness :
    (aggOut upOrgsFail).map (fun r => r.repositories) =
      some (transform_repositories (get_repositories samplePagesOne).1) ∧
    (aggOut upOrgsFail).map (fun r => r.pull_requests) =
      some (transform_pull_requests [samplePR]) ∧
    (aggOut upOrgsFail).map (fun r => r.organizations) = some [] ∧
    (aggOut upOrgsFail).map (fun r => r.metadata.partial_failures) =
      some { repositories := false, organizations := true,
             pull_requests := false } ∧
    ("Org API failed" ≠ "" →
      (aggOut upOrgsFail).map (fun r => r.metadata.errors) =
        some (some { repositories := none,
                     organizations := some "Org API failed",
                     pull_requests := none })) :=
  fanout_partial_failure_spec upOrgsFail { login := some "octocat" }
    "octocat" "Org API failed" samplePagesOne [samplePR]
    rfl rfl (by decide) rfl rfl rfl

/-- C10: whenever the identity fetch succeeded with a usable login and the
repositories fan-out call failed with message `e`, the returned
`repositories_metadata` is exactly `{total_fetched: 0, has_more: false,
limit_reached: false, pages_fetched: 0, error: e}` (all counters zeroed and
an extra `error` key) and `repositories` is empty; and on the success path
the metadata carries no `error` key at all. -/
theorem repos_failure_metadata_spec :
    (∀ (up : Upstream) (u : UserData) (username e : String),
      up.user_info = .ok u → u.login = some username → username ≠ "" →
      up.repositories = .error e →
      (aggOut up).map (fun r => r.repositories_metadata) =
        some { total_fetched := 0, has_more := false, limit_reached := false,
               pages_fetched := 0, error := some e } ∧
      (aggOut up).map (fun r => r.repositories) = some []) ∧
    (∀ (up : Upstream) (u : UserData) (username : String)
        (f : Nat → List RepoData × Bool),
      up.user_info = .ok u → u.login = some username → username ≠ "" →
      up.repositories = .ok f →
      (aggOut up).map (fun r => r.repositories_metadata.error) =
        some none) := by
  constructor
  · intro up u username e hu hl hne hr
    constructor <;>
      simp [aggOut, get_user_complete_info, hu, hl, hne, reposOutcome, hr]
  · intro up u username f hu hl hne hr
    simp [aggOut, get_user_complete_info, hu, hl, hne, reposOutcome, hr,
      get_repositories]

/-- Upstream where only the repositories sub-call fails, with a non-empty
message. -/
def upReposFail : Upstream :=
  { user_info := .ok { login := some "octocat" },
    repositories := .error "Server Error",
    organizations := .ok [],
    pull_requests := fun _ => .ok [samplePR] }

/-- Witness for `repos_failure_metadata_spec`: the failure path at
`upReposFail` and the success path at `upOrgsFail` (whose repositories
sub-call succeeds). -/
theorem repos_failure_metadata_spec_witness :
    ((aggOut upReposFail).map (fun r => r.repositories_metadata) =
        some { total_fetched := 0, has_more := false, limit_reached := false,
               pages_fetched := 0, error := some "Server Error" } ∧
      (aggOut upReposFail).map (fun r => r.repositories) = some []) ∧
    (aggOut upOrgsFail).map (fun r => r.repositories_metadata.error) =
      some none :=
  ⟨repos_failure_metadata_spec.1 upReposFail { login := some "octocat" }
      "octocat" "Server Error" rfl rfl (by decide) rfl,
    repos_failure_metadata_spec.2 upOrgsFail { login := some "octocat" }
      "octocat" samplePagesOne rfl rfl (by decide) rfl⟩

/-- The tenacity `@retry` decorator configuration of one client operation:
`stop_after_attempt`, and the `wait_exponential(multiplier, min, max)`
parameters. -/
structure RetryPolicy where
  stop_attempts : Nat
  multiplier : Nat
  wait_min : Nat
  wait_max : Nat
deriving DecidableEq

/-- Decorator on `get_user_info` (api_client.py lines 217-221). -/
def user_info_retry_policy : RetryPolicy :=
  { stop_attempts := 3, multiplier := 1, wait_min := 2, wait_max := 10 }

/-- Decorator on `get_repositories` (api_client.py lines 278-282). -/
def repositories_retry_policy : RetryPolicy :=
  { stop_attempts := 3, multiplier := 1, wait_min := 2, wait_max := 10 }

/-- Decorator on `get_organizations` (api_client.py lines 398-402). -/
def organizations_retry_policy : RetryPolicy :=
  { stop_attempts := 3, multiplier := 1, wait_min := 2, wait_max := 10 }

/-- Decorator on `get_pull_requests` (api_client.py lines 458-462). -/
def pull_requests_retry_policy : RetryPolicy :=
  { stop_attempts := 3, multiplier := 1, wait_min := 2, wait_max := 10 }

/-- tenacity `wait_exponential`: after failed attempt number `n` (1-based)
the wait is `multiplier * 2 ** n` clamped into `[min, max]`. -/
def wait_exponential (p : RetryPolicy) (attempt_number : Nat) : Nat :=
  max p.wait_min (min (p.multiplier * 2 ^ attempt_number) p.wait_max)

/-- How a retried call ultimately fails: a non-retried exception is re-raised
as is (`permanent`); when `stop_after_attempt` halts retrying, tenacity
raises a `RetryError` wrapping the last attempt (`exhausted`). -/
inductive RetryFailure where
  | permanent (e : HttpxException)
  | exhausted (e : HttpxException)
deriving DecidableEq

/-- The tenacity retry loop with `retry_if_exception(is_transient_error)`:
`outcomes n` is what attempt `n` (1-based) would produce.  Returns the final
result, the list of backoff waits performed, and the number of attempts made.
The first argument is structural fuel; with fuel ≥ `stop_attempts` it never
runs out (every recursive call requires `n < stop_attempts`). -/
def retryExec {α : Type} (p : RetryPolicy)
    (outcomes : Nat → Except HttpxException α) :
    Nat → Nat → List Nat → Except RetryFailure α × List Nat × Nat
  | 0, n, ws => (.error (.exhausted .otherError), ws, n)
  | fuel + 1, n, ws =>
      match outcomes n with
      | .ok a => (.ok a, ws, n)
      | .error e =>
          if is_transient_error e then
            if n ≥ p.stop_attempts then
              (.error (.exhausted e), ws, n)
            else
              retryExec p outcomes fuel (n + 1)
                (ws ++ [wait_exponential p n])
          else
            (.error (.permanent e), ws, n)

/-- One decorated call: run the retry loop from attempt 1. -/
def call_with_retry {α : Type} (p : RetryPolicy)
    (outcomes : Nat → Except HttpxException α) :
    Except RetryFailure α × List Nat × Nat :=
  retryExec p outcomes p.stop_attempts 1 []

/-- C9: all four operations carry the same retry decorator
(`stop_after_attempt(3)`, `wait_exponential(multiplier=1, min=2, max=10)`,
`retry_if_exception(is_transient_error)`); under it, a call whose attempts
all fail transiently makes 3 total attempts (2 retries) with backoff waits
[2, 4] before the failure is surfaced as retry exhaustion; a permanent
failure is surfaced immediately with 1 attempt and no wait; a transient
failure followed by a success is retried and succeeds on attempt 2 after a
2-second wait; and the wait after failed attempt `n ≥ 1` starts at 2 seconds
and doubles, capped at 10 seconds. -/
theorem retry_policy_spec :
    (user_info_retry_policy =
        { stop_attempts := 3, multiplier := 1, wait_min := 2,
          wait_max := 10 } ∧
      repositories_retry_policy = user_info_retry_policy ∧
      organizations_retry_policy = user_info_retry_policy ∧
      pull_requests_retry_policy = user_info_retry_policy) ∧
    (∀ (outcomes : Nat → Except HttpxException Nat)
        (f : Nat → HttpxException),
      (∀ n, outcomes n = .error (f n)) →
      (∀ n, is_transient_error (f n) = true) →
      call_with_retry user_info_retry_policy outcomes =
        (.error (.exhausted (f 3)), [2, 4], 3)) ∧
    (∀ (outcomes : Nat → Except HttpxException Nat) (e : HttpxException),
      outcomes 1 = .error e → is_transient_error e = false →
      call_with_retry user_info_retry_policy outcomes =
        (.error (.permanent e), [], 1)) ∧
    (∀ (outcomes : Nat → Except HttpxException Nat) (e : HttpxException)
        (a : Nat),
      outcomes 1 = .error e → is_transient_error e = true →
      outcomes 2 = .ok a →
      call_with_retry user_info_retry_policy outcomes = (.ok a, [2], 2)) ∧
    (wait_exponential user_info_retry_policy 1 = 2 ∧
      ∀ n, 1 ≤ n →
        wait_exponential user_info_retry_policy (n + 1) =
          min 10 (2 * wait_exponential user_info_retry_policy n)) := by
  refine ⟨⟨rfl, rfl, rfl, rfl⟩, ?_, ?_, ?_, by decide, ?_⟩
  · intro outcomes f hout htr
    simp [call_with_retry, retryExec, user_info_retry_policy, hout 1, hout 2,
      hout 3, htr 1, htr 2, htr 3, wait_exponential]
  · intro outcomes e hout htr
    simp [call_with_retry, retryExec, hout, htr]
  · intro outcomes e a h1 htr h2
    simp [call_with_retry, retryExec, user_info_retry_policy, h1, htr, h2,
      wait_exponential]
  · intro n hn
    have h2n : 2 ^ n ≥ 2 := by
      calc 2 ^ n ≥ 2 ^ 1 := Nat.pow_le_pow_right (by omega) hn
      _ = 2 := by norm_num
    simp only [wait_exponential, user_info_retry_policy, one_mul]
    rcases Nat.lt_or_ge (2 ^ n) 10 with hlt | hge
    · have hpow : (2 : Nat) ^ (n + 1) = 2 * 2 ^ n := by ring
      rw [hpow]
      omega
    · have hpow : (2 : Nat) ^ (n + 1) = 2 * 2 ^ n := by ring
      rw [hpow]
      omega

/-- Witness for `retry_policy_spec` at concrete outcome streams: all
attempts time out (exhaustion after 3 attempts with waits [2, 4]); a 404
fails permanently with no retry; a 503 followed by a success retries once. -/
theorem retry_policy_spec_witness :
    ((∀ n : Nat, (fun _ : Nat =>
          (.error .readTimeout : Except HttpxException Nat)) n =
        .error ((fun _ : Nat => HttpxException.readTimeout) n)) ∧
      call_with_retry user_info_retry_policy
          (fun _ => (.error .readTimeout : Except HttpxException Nat)) =
        (.error (.exhausted .readTimeout), [2, 4], 3)) ∧
    (call_with_retry user_info_retry_policy
        (fun _ => (.error (.httpStatusError 404) :
          Except HttpxException Nat)) =
      (.error (.permanent (.httpStatusError 404)), [], 1)) ∧
    (call_with_retry user_info_retry_policy
        (fun n => if n = 1 then
            (.error (.httpStatusError 503) : Except HttpxException Nat)
          else .ok 7) =
      (.ok 7, [2], 2)) ∧
    (1 ≤ 1 ∧ wait_exponential user_info_retry_policy 2 =
      min 10 (2 * wait_exponential user_info_retry_policy 1)) :=
  ⟨⟨fun _ => rfl,
      retry_policy_spec.2.1
        (fun _ => (.error .readTimeout : Except HttpxException Nat))
        (fun _ => .readTimeout) (fun _ => rfl) (fun _ => rfl)⟩,
    retry_policy_spec.2.2.1
      (fun _ => (.error (.httpStatusError 404) : Except HttpxException Nat))
      (.httpStatusError 404) rfl (by decide),
    retry_policy_spec.2.2.2.1
      (fun n => if n = 1 then
          (.error (.httpStatusError 503) : Except HttpxException Nat)
        else .ok 7)
      (.httpStatusError 503) 7 rfl (by decide) rfl,
    ⟨le_refl 1, retry_policy_spec.2.2.2.2.2 1 (le_refl 1)⟩⟩
